import Mathlib

/-!
Shallow embedding of the Neural-Flow orchestration core (the `pulse`
scheduler service and the `neural_flow` library it uses), together with
theorems settling the specification claims about it.

The definitions mirror:
  * `libs/neural_flow/config.py` (interval parsing, rules fingerprint),
  * `libs/neural_flow/observability.py` (id normalization, log-context
    binding over context variables),
  * `libs/neural_flow/models.py` (rule model, run results),
  * `services/pulse/main.py` (the `PulseEngine`: load-and-schedule,
    watcher job, per-run lock, and the per-source pipeline `run_source`).

Machine integers are modelled as `Nat` with explicit `% 2 ^ 32` where the
source (SHA-256 inside `hashlib`) works on 32-bit words.  Fallible Python
code (raising exceptions) is modelled with `Except`; mutable engine state
is passed explicitly.
-/

set_option maxRecDepth 8192

namespace NeuralFlow

/-! ## Python string helpers

`str.strip`, `str.lower`, `int(...)` and friends, restricted to the ASCII
fragment — every string the claims exercise is ASCII or Chinese text that
these operations leave unchanged. -/

/-- `str.strip()`: drop leading and trailing whitespace. -/
def pyStrip (s : String) : String :=
  String.mk (((s.data.dropWhile Char.isWhitespace).reverse.dropWhile Char.isWhitespace).reverse)

/-- `str.lower()` (ASCII letters; other characters are unchanged). -/
def pyLower (s : String) : String :=
  String.mk (s.data.map Char.toLower)

/-- Decimal value of a list of ASCII digit characters. -/
def digitsVal (l : List Char) : Nat :=
  l.foldl (fun a c => a * 10 + (c.toNat - 48)) 0

/-- Python `int(text)` for an optionally signed decimal string
(whitespace stripped), `none` when `int` would raise `ValueError`. -/
def pyInt? (s : String) : Option Int :=
  let t := (pyStrip s).data
  match t with
  | '-' :: ds => if ds ≠ [] ∧ ds.all Char.isDigit then some (-(digitsVal ds : Int)) else none
  | '+' :: ds => if ds ≠ [] ∧ ds.all Char.isDigit then some (digitsVal ds : Int) else none
  | ds => if ds ≠ [] ∧ ds.all Char.isDigit then some (digitsVal ds : Int) else none

/-- `needle` is a prefix of `hay` (character lists). -/
def isPrefixCh : List Char → List Char → Bool
  | [], _ => true
  | _ :: _, [] => false
  | a :: as, b :: bs => a == b && isPrefixCh as bs

/-- Python `needle in hay` substring test on character lists. -/
def containsSub (needle : List Char) : List Char → Bool
  | [] => needle.isEmpty
  | c :: rest => isPrefixCh needle (c :: rest) || containsSub needle rest

/-! ## `libs/neural_flow/config.py` — interval parser

```python
_INTERVAL_PATTERN = re.compile(r"^(\d+)([mh])$")

def interval_to_seconds(interval_text: str) -> int:
    match = _INTERVAL_PATTERN.match(interval_text.strip().lower())
    if not match:
        raise ValueError(f"Unsupported interval format: {interval_text}")
    value = int(match.group(1))
    unit = match.group(2)
    if unit == "m":
        return value * 60
    return value * 3600
```

The regex anchors both ends, so the stripped lowered text must be one or
more digits followed by a final `m` or `h`. -/

/-- `interval_to_seconds` from `config.py`; `Except.error` models the
raised `ValueError`. -/
def interval_to_seconds (interval_text : String) : Except String Nat :=
  let t := (pyLower (pyStrip interval_text)).data
  match t.getLast? with
  | none => Except.error ("Unsupported interval format: " ++ interval_text)
  | some u =>
    let ds := t.dropLast
    if (u == 'm' || u == 'h') && !ds.isEmpty && ds.all Char.isDigit then
      if u == 'm' then Except.ok (digitsVal ds * 60)
      else Except.ok (digitsVal ds * 3600)
    else Except.error ("Unsupported interval format: " ++ interval_text)

/-- The shape `_INTERVAL_PATTERN` accepts: one or more ASCII digits
followed by `m` or `h` (stated on the stripped, lowered character list). -/
def IntervalShape (l : List Char) : Prop :=
  ∃ ds u, l = ds ++ [u] ∧ ds ≠ [] ∧ (∀ c ∈ ds, c.isDigit = true) ∧ (u = 'm' ∨ u = 'h')

/-! ## `libs/neural_flow/observability.py` — id normalization and the
log-context binding

```python
def _normalize_id(value: str, *, fallback: str = "") -> str:
    cleaned = re.sub(r"[^a-zA-Z0-9_\-]", "", str(value or ""))
    return cleaned[:64] or fallback
```
-/

/-- Characters of the class `[a-zA-Z0-9_\-]`. -/
def isIdChar (c : Char) : Bool :=
  ('a' ≤ c && c ≤ 'z') || ('A' ≤ c && c ≤ 'Z') || ('0' ≤ c && c ≤ '9') || c == '_' || c == '-'

/-- `_normalize_id` from `observability.py`. -/
def normalize_id (value : String) (fallback : String := "") : String :=
  let cleaned := value.data.filter isIdChar
  let truncated := cleaned.take 64
  if truncated.isEmpty then fallback else String.mk truncated

/-- The two context variables `_TRACE_ID` and `_REQUEST_ID`
(`contextvars.ContextVar[str]`, default `""`). -/
structure Ctx where
  trace : String
  request : String
deriving DecidableEq

/-- `get_trace_id()`: the stored value with whitespace stripped. -/
def get_trace_id (ctx : Ctx) : String := pyStrip ctx.trace

/-- `get_request_id()`. -/
def get_request_id (ctx : Ctx) : String := pyStrip ctx.request

/-- The context on entering the body of
`bind_log_context(trace_id=.., request_id=..)`: a provided argument is
normalized and installed, a `None` argument leaves its variable alone. -/
def bindEnter (traceArg requestArg : Option String) (ctx : Ctx) : Ctx :=
  { trace := match traceArg with
      | some t => normalize_id t
      | none => ctx.trace
    request := match requestArg with
      | some r => normalize_id r
      | none => ctx.request }

/-- Programs that can run inside (or around) `bind_log_context`.  In the
repository the only writes to `_TRACE_ID` / `_REQUEST_ID` are the
`set`/`reset` pair inside `bind_log_context` itself, so a body is built
from pure steps, raising an exception, sequencing, and nested
`bind_log_context` blocks. -/
inductive Prog where
  | skip : Prog
  | raiseErr (msg : String) : Prog
  | seq (p q : Prog) : Prog
  | bindCtx (traceArg requestArg : Option String) (body : Prog) : Prog

/-- Executing a program against the context variables.  `bindCtx`
mirrors `bind_log_context`: `set` returns a token per provided argument,
the body runs inside `try`, and the `finally` block `reset`s exactly the
variables that were set, restoring the values they had before `set` —
on normal exit and on an exception alike. -/
def execProg : Prog → Ctx → Except String Unit × Ctx
  | Prog.skip, ctx => (Except.ok (), ctx)
  | Prog.raiseErr m, ctx => (Except.error m, ctx)
  | Prog.seq p q, ctx =>
    match execProg p ctx with
    | (Except.ok _, c1) => execProg q c1
    | (Except.error m, c1) => (Except.error m, c1)
  | Prog.bindCtx ot or body, ctx =>
    let r := execProg body (bindEnter ot or ctx)
    (r.1,
      { trace := match ot with
          | some _ => ctx.trace
          | none => r.2.trace
        request := match or with
          | some _ => ctx.request
          | none => r.2.request })

/-! ## `libs/neural_flow/config.py` — rules fingerprint

```python
def rules_fingerprint(path: Union[str, Path]) -> str:
    raw = Path(path).read_bytes()
    return hashlib.sha256(raw).hexdigest()
```

`hashlib.sha256` is FIPS 180-4 SHA-256, embedded here over byte lists
(`List Nat`, each byte `< 256`) with 32-bit words as `Nat` reduced
`% 2 ^ 32`. -/

/-- `2 ^ 32`, the word modulus. -/
def w32mod : Nat := 4294967296

/-- 32-bit rotate right. -/
def rotr32 (x n : Nat) : Nat := ((x >>> n) ||| (x <<< (32 - n))) % w32mod

/-- 32-bit addition. -/
def add32 (a b : Nat) : Nat := (a + b) % w32mod

/-- SHA-256 `Σ0`. -/
def bigSigma0 (x : Nat) : Nat := rotr32 x 2 ^^^ rotr32 x 13 ^^^ rotr32 x 22

/-- SHA-256 `Σ1`. -/
def bigSigma1 (x : Nat) : Nat := rotr32 x 6 ^^^ rotr32 x 11 ^^^ rotr32 x 25

/-- SHA-256 `σ0`. -/
def smallSigma0 (x : Nat) : Nat := rotr32 x 7 ^^^ rotr32 x 18 ^^^ (x >>> 3)

/-- SHA-256 `σ1`. -/
def smallSigma1 (x : Nat) : Nat := rotr32 x 17 ^^^ rotr32 x 19 ^^^ (x >>> 10)

/-- SHA-256 `Ch` (the complement of `e` is `e XOR (2^32 - 1)`). -/
def chFn (e f g : Nat) : Nat := (e &&& f) ^^^ ((e ^^^ 4294967295) &&& g)

/-- SHA-256 `Maj`. -/
def majFn (a b c : Nat) : Nat := (a &&& b) ^^^ (a &&& c) ^^^ (b &&& c)

/-- The 64 SHA-256 round constants. -/
def sha256K : List Nat :=
  [1116352408, 1899447441, 3049323471, 3921009573, 961987163, 1508970993, 2453635748, 2870763221,
   3624381080, 310598401, 607225278, 1426881987, 1925078388, 2162078206, 2614888103, 3248222580,
   3835390401, 4022224774, 264347078, 604807628, 770255983, 1249150122, 1555081692, 1996064986,
   2554220882, 2821834349, 2952996808, 3210313671, 3336571891, 3584528711, 113926993, 338241895,
   666307205, 773529912, 1294757372, 1396182291, 1695183700, 1986661051, 2177026350, 2456956037,
   2730485921, 2820302411, 3259730800, 3345764771, 3516065817, 3600352804, 4094571909, 275423344,
   430227734, 506948616, 659060556, 883997877, 958139571, 1322822218, 1537002063, 1747873779,
   1955562222, 2024104815, 2227730452, 2361852424, 2428436474, 2756734187, 3204031479, 3329325298]

/-- Big-endian 8-byte encoding of the bit length. -/
def toBE64 (n : Nat) : List Nat :=
  [n >>> 56 % 256, n >>> 48 % 256, n >>> 40 % 256, n >>> 32 % 256,
   n >>> 24 % 256, n >>> 16 % 256, n >>> 8 % 256, n % 256]

/-- SHA-256 padding: append `0x80`, zero bytes to 56 mod 64, then the
bit length as 8 big-endian bytes. -/
def padMessage (msg : List Nat) : List Nat :=
  let L := msg.length
  let k := (119 - L % 64) % 64
  msg ++ [128] ++ List.replicate k 0 ++ toBE64 (8 * L)

/-- Split into 64-byte chunks (`fuel` bounds the recursion so that the
definition is structural and evaluates inside the kernel). -/
def toChunksFuel : Nat → List Nat → List (List Nat)
  | 0, _ => []
  | _, [] => []
  | fuel + 1, l => l.take 64 :: toChunksFuel fuel (l.drop 64)

/-- Split a padded message into its 64-byte chunks. -/
def toChunks (l : List Nat) : List (List Nat) := toChunksFuel l.length l

/-- Combine consecutive byte quadruples into big-endian 32-bit words. -/
def toWords : List Nat → List Nat
  | b0 :: b1 :: b2 :: b3 :: rest =>
    (b0 * 16777216 + b1 * 65536 + b2 * 256 + b3) :: toWords rest
  | _ => []

/-- Extend the message schedule, keeping the words seen so far in
reverse order: `rw.getD 1` is `w[i-2]`, `rw.getD 6` is `w[i-7]`,
`rw.getD 14` is `w[i-15]`, `rw.getD 15` is `w[i-16]`. -/
def schedExtend : Nat → List Nat → List Nat
  | 0, rw => rw
  | n + 1, rw =>
    let nw := (rw.getD 15 0 + smallSigma0 (rw.getD 14 0) + rw.getD 6 0
               + smallSigma1 (rw.getD 1 0)) % w32mod
    schedExtend n (nw :: rw)

/-- The 64-entry message schedule of one chunk. -/
def schedule (chunk : List Nat) : List Nat :=
  (schedExtend 48 (toWords chunk).reverse).reverse

/-- One compression round per `(w[i], k[i])` pair. -/
def roundsLoop : List (Nat × Nat) →
    Nat × Nat × Nat × Nat × Nat × Nat × Nat × Nat →
    Nat × Nat × Nat × Nat × Nat × Nat × Nat × Nat
  | [], s => s
  | (wi, ki) :: rest, (a, b, c, d, e, f, g, h) =>
    let t1 := (h + bigSigma1 e + chFn e f g + ki + wi) % w32mod
    let t2 := (bigSigma0 a + majFn a b c) % w32mod
    roundsLoop rest ((t1 + t2) % w32mod, a, b, c, (d + t1) % w32mod, e, f, g)

/-- The eight 32-bit hash state words. -/
structure Hash8 where
  h0 : Nat
  h1 : Nat
  h2 : Nat
  h3 : Nat
  h4 : Nat
  h5 : Nat
  h6 : Nat
  h7 : Nat
deriving DecidableEq

/-- SHA-256 initial hash state. -/
def initH : Hash8 :=
  ⟨1779033703, 3144134277, 1013904242, 2773480762,
   1359893119, 2600822924, 528734635, 1541459225⟩

/-- Process one 64-byte chunk. -/
def processChunk (H : Hash8) (chunk : List Nat) : Hash8 :=
  let s := roundsLoop ((schedule chunk).zip sha256K)
    (H.h0, H.h1, H.h2, H.h3, H.h4, H.h5, H.h6, H.h7)
  ⟨add32 H.h0 s.1, add32 H.h1 s.2.1, add32 H.h2 s.2.2.1, add32 H.h3 s.2.2.2.1,
   add32 H.h4 s.2.2.2.2.1, add32 H.h5 s.2.2.2.2.2.1,
   add32 H.h6 s.2.2.2.2.2.2.1, add32 H.h7 s.2.2.2.2.2.2.2⟩

/-- The final SHA-256 state of a byte string. -/
def sha256State (msg : List Nat) : Hash8 :=
  (toChunks (padMessage msg)).foldl processChunk initH

/-- Lowercase hex digit for a nibble. -/
def hexChar (n : Nat) : Char := "0123456789abcdef".data.getD (n % 16) '0'

/-- Eight lowercase hex characters of a 32-bit word, big-endian. -/
def toHex8 (n : Nat) : List Char :=
  [hexChar (n / 268435456), hexChar (n / 16777216), hexChar (n / 1048576),
   hexChar (n / 65536), hexChar (n / 4096), hexChar (n / 256),
   hexChar (n / 16), hexChar n]

/-- `hexdigest()` of a hash state. -/
def renderHex (H : Hash8) : String :=
  String.mk (toHex8 H.h0 ++ toHex8 H.h1 ++ toHex8 H.h2 ++ toHex8 H.h3 ++
             toHex8 H.h4 ++ toHex8 H.h5 ++ toHex8 H.h6 ++ toHex8 H.h7)

/-- `hashlib.sha256(raw).hexdigest()`. -/
def sha256Hex (msg : List Nat) : String := renderHex (sha256State msg)

/-- `rules_fingerprint` from `config.py`, as a function of the raw bytes
read from the file. -/
def rules_fingerprint (raw : List Nat) : String := sha256Hex raw

/-! ## `libs/neural_flow/models.py` — the rule model

Pydantic models become structures with the same fields and defaults;
the insertion-ordered `platforms` dict becomes an association list. -/

/-- `SourceConfig`. -/
structure SourceConfig where
  id : String
  type : String := "rss"
  url : String := ""
  fetch_interval : String := "30m"
  weight : Int := 1
  max_items : Int := 5
deriving DecidableEq

/-- `PlatformPolicy`. -/
structure PlatformPolicy where
  enabled : Bool := true
  style_prompt : String := "default"
  schedule : Option String := none
  max_posts_per_day : Option Int := none
  min_word_count : Option Int := none
deriving DecidableEq

/-- `GlobalConfig`. -/
structure GlobalConfig where
  timezone : String := "Asia/Shanghai"
  memory_retention_days : Int := 30
deriving DecidableEq

/-- `VisualConfig`. -/
structure VisualConfig where
  default_style : String := "cyberpunk, data flow"
  default_ratio : String := "16:9"
deriving DecidableEq

/-- `RulesConfig`; `platforms` keeps the dict's insertion order. -/
structure RulesConfig where
  global_config : GlobalConfig := {}
  sources : List SourceConfig := []
  platforms : List (String × PlatformPolicy) := []
  visual : VisualConfig := {}
deriving DecidableEq

/-- `PulseRunResult` (`started_at` / `ended_at` are abstract clock
readings). -/
structure PulseRunResult where
  source_id : String
  scanned : Nat
  processed : Nat
  duplicated : Nat
  failed : Nat
  started_at : Nat
  ended_at : Nat
deriving DecidableEq

/-- A normalized item as consumed by `run_source` (the fields the
pipeline reads from the scan response's item dicts). -/
structure Item where
  url_hash : String := ""
  title : String := ""
  url : String := ""
  summary : String := ""
  raw_text : String := ""
  images : List String := []
  keywords : List String := []
deriving DecidableEq

/-! ## `services/pulse/main.py` — value filter, source info, content pack -/

/-- `HIGH_VALUE_HINTS`. -/
def HIGH_VALUE_HINTS : List String :=
  ["发布", "开源", "上线", "agent", "benchmark", "paper", "模型", "融资", "sota"]

/-- `_is_high_value_signal`: at least two of {raw text length ≥ 220,
has an image, lowered title+text+summary contains a hint}. -/
def is_high_value_signal (item : Item) : Bool :=
  let merged := pyLower (item.title ++ "\n" ++ item.raw_text ++ "\n" ++ item.summary)
  let score :=
    (if item.raw_text.length ≥ 220 then 1 else 0)
    + (if item.images.length > 0 then 1 else 0)
    + (if HIGH_VALUE_HINTS.any (fun h => containsSub h.data merged.data) then 1 else 0)
  score ≥ 2

/-- `_source_info_from_source_id`. -/
def source_info_from_source_id (source_id : String) : String :=
  let raw := pyLower (pyStrip source_id)
  if raw.isEmpty then "unknown-unknown"
  else if raw.startsWith "twitter_" then
    "twitter-" ++ ((raw.drop 8).replace "_live" "")
  else if raw.startsWith "wechat_" then
    "wechat-" ++ ((raw.drop 7).replace "_live" "")
  else if raw.startsWith "xhs_" || containsSub "xiaohongshu".data raw.data then
    "xiaohongshu-" ++ (raw.replace "_live" "")
  else raw

/-- The per-item trace id: first 8 characters of `url_hash`, or the
source id when the hash is empty. -/
def traceIdFor (source : SourceConfig) (item : Item) : String :=
  if item.url_hash = "" then source.id else item.url_hash.take 8

/-- Names of the enabled platform policies
(`platform_strategy.keys()` in `run_source`; empty when
`self.rules` is `None`). -/
def enabledPlatformNames (orules : Option RulesConfig) : List String :=
  match orules with
  | none => []
  | some r => (r.platforms.filter (fun p => p.2.enabled)).map (fun p => p.1)

/-- `str(item.get("summary") or item.get("raw_text") or "")[:240]`. -/
def sourceSummaryOf (item : Item) : String :=
  (if item.summary ≠ "" then item.summary
   else if item.raw_text ≠ "" then item.raw_text
   else "").take 240

/-- The `content_pack` dict assembled in `run_source`. -/
structure ContentPack where
  record_type : String
  source_id : String
  source_info : String
  url_hash : String
  title : String
  source_url : String
  topic_summary : String
  ai_summary : String
  image_url : String
  image_urls : List String
  channels : List String
  status : String
  trace_id : String
deriving DecidableEq

/-- Assembling the `content_pack` for one item, as in `run_source`
(`channels` falls back to the literal default list when no platform
policy is enabled or no rules are loaded, because an empty Python list
is falsy). -/
def mkContentPack (orules : Option RulesConfig) (source : SourceConfig) (item : Item) :
    ContentPack :=
  { record_type := "topic"
    source_id := source.id
    source_info := source_info_from_source_id source.id
    url_hash := item.url_hash
    title := item.title
    source_url := item.url
    topic_summary := sourceSummaryOf item
    ai_summary := ""
    image_url := match item.images with
      | [] => ""
      | x :: _ => x
    image_urls := item.images.take 3
    channels := if (enabledPlatformNames orules).isEmpty then ["twitter", "wechat_blog"]
      else enabledPlatformNames orules
    status := "待确认"
    trace_id := traceIdFor source item }

/-- The archive collaborator's response (`feishu_doc_url` read with a
`""` default). -/
structure ArchiveResp where
  feishu_doc_url : String := ""
  status : String := ""
deriving DecidableEq

/-- The `/remember` request body assembled in `run_source`. -/
structure RememberPayload where
  source_id : String
  url_hash : String
  title : String
  url : String
  summary : String
  keywords : List String
  raw_text : String
  archive_url : String
  image_url : String
deriving DecidableEq

/-- Assembling the `/remember` payload for one item. -/
def mkRememberPayload (source : SourceConfig) (item : Item) (ar : ArchiveResp) :
    RememberPayload :=
  { source_id := source.id
    url_hash := item.url_hash
    title := item.title
    url := item.url
    summary := sourceSummaryOf item
    keywords := item.keywords
    raw_text := item.raw_text
    archive_url := ar.feishu_doc_url
    image_url := match item.images with
      | [] => ""
      | x :: _ => x }

/-! ## `run_source` — the per-source pipeline -/

/-- The remote collaborators `run_source` talks to (each `post_json`
round trip); `Except.error` models a raised exception. -/
structure Collaborators where
  scan : SourceConfig → Except String (List Item)
  checkDuplicate : String → Except String Bool
  archive : ContentPack → Except String ArchiveResp
  remember : RememberPayload → Except String Unit

/-- A record of one outbound collaborator call, in order. -/
inductive CallRec where
  | scanCall (source_id : String) : CallRec
  | checkDupCall (url_hash : String) : CallRec
  | archiveCall (pack : ContentPack) : CallRec
  | rememberCall (payload : RememberPayload) : CallRec
deriving DecidableEq

/-- The mutable `counters` dict of `run_source`. -/
structure RunCounters where
  scanned : Nat := 0
  processed : Nat := 0
  duplicated : Nat := 0
  filtered : Nat := 0
  failed : Nat := 0
deriving DecidableEq

/-- The body of the per-item loop of `run_source` (inside the per-item
`try`): duplicate check, value filter, archive, remember; any raised
error increments `failed` and is swallowed. -/
def processItem (collab : Collaborators) (orules : Option RulesConfig)
    (source : SourceConfig) (item : Item) (c : RunCounters) :
    RunCounters × List CallRec :=
  match collab.checkDuplicate item.url_hash with
  | Except.error _ => ({ c with failed := c.failed + 1 }, [CallRec.checkDupCall item.url_hash])
  | Except.ok true =>
    ({ c with duplicated := c.duplicated + 1 }, [CallRec.checkDupCall item.url_hash])
  | Except.ok false =>
    if !is_high_value_signal item then
      ({ c with filtered := c.filtered + 1 }, [CallRec.checkDupCall item.url_hash])
    else
      let pack := mkContentPack orules source item
      match collab.archive pack with
      | Except.error _ =>
        ({ c with failed := c.failed + 1 },
         [CallRec.checkDupCall item.url_hash, CallRec.archiveCall pack])
      | Except.ok ar =>
        let payload := mkRememberPayload source item ar
        match collab.remember payload with
        | Except.error _ =>
          ({ c with failed := c.failed + 1 },
           [CallRec.checkDupCall item.url_hash, CallRec.archiveCall pack,
            CallRec.rememberCall payload])
        | Except.ok _ =>
          ({ c with processed := c.processed + 1 },
           [CallRec.checkDupCall item.url_hash, CallRec.archiveCall pack,
            CallRec.rememberCall payload])

/-- In-place update of the `last_runs` dict. -/
def dictInsert : List (String × PulseRunResult) → String → PulseRunResult →
    List (String × PulseRunResult)
  | [], k, v => [(k, v)]
  | (k', v') :: rest, k, v =>
    if k' == k then (k, v) :: rest else (k', v') :: dictInsert rest k v

/-- Dict lookup. -/
def dictGet? : List (String × PulseRunResult) → String → Option PulseRunResult
  | [], _ => none
  | (k', v') :: rest, k => if k' == k then some v' else dictGet? rest k

/-- Everything `run_source` produces: the serialized `PulseRunResult`,
the final counters, the ordered collaborator call log, and the updated
`last_runs` map. -/
structure RunOutcome where
  result : PulseRunResult
  counters : RunCounters
  calls : List CallRec
  lastRuns : List (String × PulseRunResult)
deriving DecidableEq

/-- `PulseEngine.run_source`: scan, then the per-item loop; a scan
failure increments `failed` and skips the loop; finally the immutable
result is built from the counters (dropping `filtered`) and stored in
`last_runs` keyed by the source id. -/
def run_source (collab : Collaborators) (orules : Option RulesConfig)
    (source : SourceConfig) (lastRuns : List (String × PulseRunResult))
    (startedAt endedAt : Nat) : RunOutcome :=
  let eff : RunCounters × List CallRec :=
    match collab.scan source with
    | Except.error _ =>
      ({ scanned := 0, processed := 0, duplicated := 0, filtered := 0, failed := 1 },
       [CallRec.scanCall source.id])
    | Except.ok items =>
      items.foldl
        (fun acc it =>
          let step := processItem collab orules source it acc.1
          (step.1, acc.2 ++ step.2))
        ({ scanned := items.length, processed := 0, duplicated := 0, filtered := 0,
           failed := 0 },
         [CallRec.scanCall source.id])
  let result : PulseRunResult :=
    { source_id := source.id
      scanned := eff.1.scanned
      processed := eff.1.processed
      duplicated := eff.1.duplicated
      failed := eff.1.failed
      started_at := startedAt
      ended_at := endedAt }
  { result := result
    counters := eff.1
    calls := eff.2
    lastRuns := dictInsert lastRuns source.id result }

/-! ## `PulseEngine` — scheduler state, `_load_and_schedule`, the lock -/

/-- A job trigger (`IntervalTrigger` / `CronTrigger`). -/
inductive Trigger where
  | interval (seconds : Nat) : Trigger
  | cron (hour minute : Int) : Trigger
deriving DecidableEq

/-- What a scheduled job runs. -/
inductive JobKind where
  | watchRules : JobKind
  | runSourceJob (source : SourceConfig) : JobKind
  | runAllSourcesJob (platform : String) : JobKind
  | cleanupJob : JobKind
deriving DecidableEq

/-- One APScheduler job. -/
structure Job where
  id : String
  kind : JobKind
  trigger : Trigger
deriving DecidableEq

/-- `add_job(..., replace_existing=True)`: any job with the same id is
replaced. -/
def addJob (j : Job) (jobs : List Job) : List Job :=
  jobs.filter (fun k => k.id ≠ j.id) ++ [j]

/-- `PulseEngine._clear_runtime_jobs`: remove every job whose id is not
`config_watcher`. -/
def clear_runtime_jobs (jobs : List Job) : List Job :=
  jobs.filter (fun j => j.id == "config_watcher")

/-- The engine's mutable fields touched by `_load_and_schedule`. -/
structure EngineState where
  rules : Option RulesConfig
  fingerprint : String
  jobs : List Job
deriving DecidableEq

/-- The outcome of reading and parsing `rules.yaml` and resolving the
timezone on one reload attempt (the file system and `ZoneInfo` seen as
an oracle). -/
structure ConfigEnv where
  fingerprintResult : Except String String
  loadResult : Except String RulesConfig
  tzValid : String → Bool

/-- Which stage of a reload raised. -/
inductive PyErr where
  | readError (msg : String) : PyErr
  | parseError (msg : String) : PyErr
  | tzError (timezone : String) : PyErr
  | valueError (msg : String) : PyErr
deriving DecidableEq

/-- Stable descending insertion by `weight` (equal weights keep their
original relative order, as Python's stable `sorted(..., reverse=True)`
does). -/
def insertWeighted (s : SourceConfig) : List SourceConfig → List SourceConfig
  | [] => [s]
  | t :: ts => if s.weight ≤ t.weight then t :: insertWeighted s ts else s :: t :: ts

/-- `sorted(rules.sources, key=lambda s: s.weight, reverse=True)`. -/
def sortByWeightDesc (l : List SourceConfig) : List SourceConfig :=
  l.foldl (fun acc s => insertWeighted s acc) []

/-- `PulseEngine._parse_schedule_hhmm` followed by `CronTrigger`'s own
field validation (hour `0..23`, minute `0..59`). -/
def parse_schedule_hhmm (raw : String) : Except String (Int × Int) :=
  let parts := (pyStrip raw).splitOn ":"
  match parts with
  | [p0, p1] =>
    match pyInt? p0, pyInt? p1 with
    | some h, some m =>
      if 0 ≤ h ∧ h ≤ 23 ∧ 0 ≤ m ∧ m ≤ 59 then Except.ok (h, m)
      else Except.error ("Invalid cron field: " ++ raw)
    | _, _ => Except.error ("invalid literal for int: " ++ raw)
  | _ => Except.error ("Invalid HH:MM schedule: " ++ raw)

/-- The source-job installation loop; an invalid `fetch_interval`
raises, leaving the jobs added so far in place. -/
def installSourceJobs : List SourceConfig → List Job → Except String Unit × List Job
  | [], jobs => (Except.ok (), jobs)
  | s :: rest, jobs =>
    match interval_to_seconds s.fetch_interval with
    | Except.error m => (Except.error m, jobs)
    | Except.ok secs =>
      installSourceJobs rest
        (addJob { id := "source::" ++ s.id, kind := JobKind.runSourceJob s,
                  trigger := Trigger.interval secs } jobs)

/-- The platform-job installation loop: policies that are disabled or
have no (or an empty, hence falsy) schedule are skipped; an invalid
schedule raises, leaving the jobs added so far in place. -/
def installPlatformJobs : List (String × PlatformPolicy) → List Job →
    Except String Unit × List Job
  | [], jobs => (Except.ok (), jobs)
  | (name, policy) :: rest, jobs =>
    match policy.schedule with
    | none => installPlatformJobs rest jobs
    | some sched =>
      if !policy.enabled || sched == "" then installPlatformJobs rest jobs
      else
        match parse_schedule_hhmm sched with
        | Except.error m => (Except.error m, jobs)
        | Except.ok hm =>
          installPlatformJobs rest
            (addJob { id := "platform::" ++ name, kind := JobKind.runAllSourcesJob name,
                      trigger := Trigger.cron hm.1 hm.2 } jobs)

/-- `PulseEngine._load_and_schedule`: recompute the fingerprint,
short-circuit when unchanged and not forced, parse the rules, resolve
the timezone, clear every job but the watcher, then install source
jobs (descending weight), platform cron jobs, and the maintenance job;
only on full success are `self.rules` and `self.fingerprint` updated.
An exception propagates to the caller with the state as mutated so
far. -/
def load_and_schedule (env : ConfigEnv) (force : Bool) (st : EngineState) :
    Except PyErr Unit × EngineState :=
  match env.fingerprintResult with
  | Except.error m => (Except.error (PyErr.readError m), st)
  | Except.ok newFp =>
    if !force && newFp == st.fingerprint then (Except.ok (), st)
    else
      match env.loadResult with
      | Except.error m => (Except.error (PyErr.parseError m), st)
      | Except.ok rules =>
        if !env.tzValid rules.global_config.timezone then
          (Except.error (PyErr.tzError rules.global_config.timezone), st)
        else
          let jobs0 := clear_runtime_jobs st.jobs
          match installSourceJobs (sortByWeightDesc rules.sources) jobs0 with
          | (Except.error m, jobs1) =>
            (Except.error (PyErr.valueError m), { st with jobs := jobs1 })
          | (Except.ok _, jobs1) =>
            match installPlatformJobs rules.platforms jobs1 with
            | (Except.error m, jobs2) =>
              (Except.error (PyErr.valueError m), { st with jobs := jobs2 })
            | (Except.ok _, jobs2) =>
              let jobs3 := addJob { id := "maintenance::cleanup", kind := JobKind.cleanupJob,
                                    trigger := Trigger.cron 3 30 } jobs2
              (Except.ok (),
               { rules := some rules, fingerprint := newFp, jobs := jobs3 })

/-! ## The run lock

`PulseEngine.__init__` creates exactly one lock, `self._run_lock`, and
`run_source` wraps the whole run in `with self._run_lock` regardless of
which source it runs. -/

/-- The locks a `PulseEngine` owns: just the single `_run_lock`. -/
inductive LockId where
  | runLock : LockId
deriving DecidableEq

/-- The lock a run of `source` acquires in `run_source`: always the
engine's single `_run_lock`. -/
def runSourceLock (_source : SourceConfig) : LockId := LockId.runLock

/-- Holder map of the engine's locks: which source's run (by id)
currently holds each lock. -/
def LockState := LockId → Option String

/-- Attempting to start a run of `source`: acquire `runSourceLock
source` if it is free, otherwise block (`none`). -/
def tryBeginRun (st : LockState) (source : SourceConfig) : Option LockState :=
  match st (runSourceLock source) with
  | some _ => none
  | none =>
    some (fun l => if l = runSourceLock source then some source.id else st l)

/-! ## Concrete fixtures

Closed items, sources and collaborator oracles used to evaluate the
pipeline and scheduler definitions on concrete inputs. -/

/-- An item whose duplicate check will answer `true`. -/
def itemDup : Item := { url_hash := "hashaaa1" }

/-- An item with no value signals at all (score 0). -/
def itemLow : Item := { url_hash := "hashbbb2" }

/-- An item with a long raw text and an image (score ≥ 2). -/
def itemHigh : Item :=
  { url_hash := "hashccc3"
    title := "New agent benchmark"
    url := "http://example.com/post/3"
    raw_text := "xxxxxxxxxxxxxxxxxxxxxxxxxxxxxxxxxxxxxxxxxxxxxxxxxxxxxxxxxxxxxxxxxxxxxxxxxxxxxxxxxxxxxxxxxxxxxxxxxxxxxxxxxxxxxxxxxxxxxxxxxxxxxxxxxxxxxxxxxxxxxxxxxxxxxxxxxxxxxxxxxxxxxxxxxxxxxxxxxxxxxxxxxxxxxxxxxxxxxxxxxxxxxxxxxxxxxxxxxx"
    images := ["http://img.example.com/1.png"] }

/-- The archive response the test collaborators return. -/
def testArchiveResp : ArchiveResp := { feishu_doc_url := "http://doc.example.com/1", status := "ok" }

/-- Collaborators for the mixed three-item batch: only `itemDup`'s hash
is a duplicate, archiving and remembering always succeed. -/
def testCollab : Collaborators :=
  { scan := fun _ => Except.ok [itemDup, itemLow, itemHigh]
    checkDuplicate := fun h => Except.ok (h == "hashaaa1")
    archive := fun _ => Except.ok testArchiveResp
    remember := fun _ => Except.ok () }

/-- Collaborators whose scan raises. -/
def failCollab : Collaborators :=
  { scan := fun _ => Except.error "connection refused"
    checkDuplicate := fun _ => Except.error "unused"
    archive := fun _ => Except.error "unused"
    remember := fun _ => Except.error "unused" }

/-- A concrete source. -/
def testSource : SourceConfig := { id := "twitter_ai_live", url := "http://example.com/feed" }

/-- A second, different concrete source. -/
def testSourceB : SourceConfig := { id := "wechat_ml_live", url := "http://example.com/feed2" }

/-- A rules file whose only source carries an invalid fetch interval:
pydantic performs no interval validation, so `load_rules` accepts it and
the error only surfaces inside the job-installation loop. -/
def badIntervalRules : RulesConfig :=
  { sources := [{ id := "feed_a", fetch_interval := "15x" }] }

/-- Environment for a reload of `badIntervalRules`: the file reads and
parses fine and the timezone resolves. -/
def cexEnv : ConfigEnv :=
  { fingerprintResult := Except.ok "fp2"
    loadResult := Except.ok badIntervalRules
    tzValid := fun _ => true }

/-- Environment in which reading the rules file fails. -/
def readFailEnv : ConfigEnv :=
  { fingerprintResult := Except.error "unreadable"
    loadResult := Except.error "unreadable"
    tzValid := fun _ => true }

/-- An engine that already has a watcher job and one previously
installed source job. -/
def cexState : EngineState :=
  { rules := some {}
    fingerprint := "fp1"
    jobs := [{ id := "config_watcher", kind := JobKind.watchRules,
               trigger := Trigger.interval 60 },
             { id := "source::feed_old",
               kind := JobKind.runSourceJob { id := "feed_old" },
               trigger := Trigger.interval 900 }] }

/-- Bounds invariant of a SHA-256 hash state: all eight words are
32-bit. -/
def HashBounded (H : Hash8) : Prop :=
  H.h0 < w32mod ∧ H.h1 < w32mod ∧ H.h2 < w32mod ∧ H.h3 < w32mod
  ∧ H.h4 < w32mod ∧ H.h5 < w32mod ∧ H.h6 < w32mod ∧ H.h7 < w32mod

/-! ## Helper lemmas -/

/-- Dropping while a predicate holds does nothing when no element
satisfies it. -/
theorem dropWhile_eq_self_of_all_false {p : Char → Bool} :
    ∀ l : List Char, (∀ c ∈ l, p c = false) → l.dropWhile p = l := by
  intro l h
  induction l with
  | nil => rfl
  | cons a as _ =>
    have ha : p a = false := h a (List.mem_cons_self a as)
    simp [List.dropWhile, ha]

/-- `pyStrip` is the identity on strings without whitespace
characters. -/
theorem pyStrip_eq_self_of_no_ws (s : String)
    (h : ∀ c ∈ s.data, c.isWhitespace = false) : pyStrip s = s := by
  unfold pyStrip
  rw [dropWhile_eq_self_of_all_false s.data h]
  rw [dropWhile_eq_self_of_all_false s.data.reverse (by intro c hc; exact h c (List.mem_reverse.mp hc))]
  simp

/-- Identifier characters are not whitespace. -/
theorem isIdChar_not_whitespace (c : Char) (h : isIdChar c = true) :
    c.isWhitespace = false := by
  by_contra hw
  have hw' : c.isWhitespace = true := by
    cases hcw : c.isWhitespace with
    | true => rfl
    | false => exact absurd hcw hw
  have hforms : ((c = ' ' ∨ c = '\t') ∨ c = '\r') ∨ c = '\n' := by
    simpa [Char.isWhitespace] using hw'
  rcases hforms with ((h1 | h1) | h1) | h1 <;> subst h1 <;> simp [isIdChar] at h

/-- `execProg` leaves the context variables exactly as it found them:
the only writes are the `set`/`reset` pairs of `bind_log_context`, and
each `reset` restores the value from before the matching `set`. -/
theorem execProg_preserves_ctx (p : Prog) : ∀ ctx : Ctx, (execProg p ctx).2 = ctx := by
  induction p with
  | skip => intro ctx; rfl
  | raiseErr m => intro ctx; rfl
  | seq p q ihp ihq =>
    intro ctx
    simp only [execProg]
    rcases hp : execProg p ctx with ⟨r, c1⟩
    have hc1 : c1 = ctx := by
      have := ihp ctx
      rw [hp] at this
      exact this
    cases r with
    | ok _ => simpa [hc1] using ihq c1
    | error m => simp [hc1]
  | bindCtx ot or body ih =>
    intro ctx
    obtain ⟨tr, rq⟩ := ctx
    simp only [execProg]
    have hb := ih (bindEnter ot or ⟨tr, rq⟩)
    cases ot <;> cases or <;>
      simp_all [bindEnter]

/-! ## The claims -/

/-- **C4 counterexample**: the claim says the interval parser fails on
zero, but `interval_to_seconds "0m"` succeeds and returns `0`
(the regex `^(\d+)([mh])$` matches `"0m"`). -/
theorem interval_to_seconds_accepts_zero : interval_to_seconds "0m" = Except.ok 0 := by
  rfl

/-- **C4 (amended)**: `interval_to_seconds` accepts exactly the strings
whose stripped, lowercased form is one or more ASCII digits followed by
`m` or `h` — zero included (`"0m" ↦ 0`); `"30m" ↦ 1800`,
`"2h" ↦ 7200`, and negative values, a missing unit (`"30"`), an unknown
unit (`"2d"`), and the empty string are all rejected. -/
theorem interval_to_seconds_spec :
    (∀ s : String,
      (∃ n, interval_to_seconds s = Except.ok n) ↔
        IntervalShape ((pyLower (pyStrip s)).data))
    ∧ interval_to_seconds "30m" = Except.ok 1800
    ∧ interval_to_seconds "2h" = Except.ok 7200
    ∧ interval_to_seconds " 2H " = Except.ok 7200
    ∧ interval_to_seconds "0m" = Except.ok 0
    ∧ interval_to_seconds "-5m" = Except.error "Unsupported interval format: -5m"
    ∧ interval_to_seconds "30" = Except.error "Unsupported interval format: 30"
    ∧ interval_to_seconds "2d" = Except.error "Unsupported interval format: 2d"
    ∧ interval_to_seconds "" = Except.error "Unsupported interval format: " := by
  refine ⟨?_, rfl, rfl, rfl, rfl, rfl, rfl, rfl, rfl⟩
  intro s
  unfold interval_to_seconds IntervalShape
  generalize (pyLower (pyStrip s)).data = t
  induction t using List.reverseRecOn with
  | nil => simp
  | append_singleton ds u _ =>
    simp only [List.getLast?_concat, List.dropLast_concat]
    by_cases hcond : ((u == 'm' || u == 'h') && !ds.isEmpty && ds.all Char.isDigit) = true
    · constructor
      · intro _
        refine ⟨ds, u, rfl, ?_, ?_, ?_⟩
        · simp only [Bool.and_eq_true, Bool.not_eq_true'] at hcond
          intro hds
          subst hds
          simp at hcond
        · intro c hc
          simp only [Bool.and_eq_true, List.all_eq_true] at hcond
          exact hcond.2 c hc
        · simp only [Bool.and_eq_true, Bool.or_eq_true, beq_iff_eq] at hcond
          exact hcond.1.1
      · intro _
        rw [hcond]
        by_cases hu : (u == 'm') = true
        · rw [if_pos hu]; exact ⟨digitsVal ds * 60, rfl⟩
        · rw [if_neg hu]; exact ⟨digitsVal ds * 3600, rfl⟩
    · rw [Bool.not_eq_true] at hcond
      rw [hcond]
      constructor
      · rintro ⟨n, hn⟩
        exact absurd hn (by simp)
      · rintro ⟨ds', u', heq, hne, hdig, hu⟩
        have hu' : u' = u := by
          have h1 := congrArg List.getLast? heq
          rw [List.getLast?_concat, List.getLast?_concat] at h1
          exact (Option.some_injective _ h1).symm
        have hds' : ds' = ds := by
          have h1 := congrArg List.dropLast heq
          rw [List.dropLast_concat, List.dropLast_concat] at h1
          exact h1.symm
        rw [hu'] at hu
        rw [hds'] at hne hdig
        have hcondT : ((u == 'm' || u == 'h') && !ds.isEmpty && ds.all Char.isDigit) = true := by
          have hne' : ds.isEmpty = false := by
            cases ds with
            | nil => exact absurd rfl hne
            | cons a as => rfl
          simp only [Bool.and_eq_true, Bool.or_eq_true, beq_iff_eq, Bool.not_eq_true',
            List.all_eq_true]
          exact ⟨⟨hu, hne'⟩, hdig⟩
        rw [hcondT] at hcond
        exact absurd hcond (by simp)

/-- **C4 witness**: the characterization at the concrete input
`"45M"`. -/
theorem interval_to_seconds_spec_check :
    (∃ n, interval_to_seconds "45M" = Except.ok n) :=
  (interval_to_seconds_spec.1 "45M").mpr
    ⟨['4', '5'], 'm', rfl, by simp, by decide, Or.inl rfl⟩

/-- **C7**: `bind_log_context` restores the previously active trace id
and request id on every exit path: for any arguments, any body built
from the repository's context operations (including bodies that raise
and bodies that nest further `bind_log_context` blocks), the context
after the block equals the context before it, and the body's outcome
(normal or exceptional) is passed through. -/
theorem bind_log_context_restores (ot or : Option String) (body : Prog) (ctx : Ctx) :
    (execProg (Prog.bindCtx ot or body) ctx).2 = ctx
    ∧ (execProg (Prog.bindCtx ot or body) ctx).1
        = (execProg body (bindEnter ot or ctx)).1 := by
  refine ⟨execProg_preserves_ctx _ ctx, ?_⟩
  simp only [execProg]

/-- **C10**: every id installed by `bind_log_context` is
`_normalize_id` of the argument: at most 64 characters, all from
`[a-zA-Z0-9_-]`, and `get_trace_id` returns it unchanged (its final
`strip()` finds no whitespace to remove). -/
theorem normalized_ids_bounded (s r : String) :
    (bindEnter (some s) (some r) { trace := "", request := "" }).trace = normalize_id s
    ∧ (normalize_id s).length ≤ 64
    ∧ (∀ c ∈ (normalize_id s).data, isIdChar c = true)
    ∧ get_trace_id { trace := normalize_id s, request := r } = normalize_id s := by
  have hchars : ∀ c ∈ (normalize_id s).data, isIdChar c = true := by
    intro c hc
    unfold normalize_id at hc
    by_cases he : ((s.data.filter isIdChar).take 64).isEmpty
    · simp [he] at hc
    · simp only [if_neg he] at hc
      have : c ∈ s.data.filter isIdChar := List.take_subset 64 _ hc
      exact (List.mem_filter.mp this).2
  refine ⟨rfl, ?_, hchars, ?_⟩
  · unfold normalize_id
    by_cases he : ((s.data.filter isIdChar).take 64).isEmpty
    · simp [he]
    · simp only [if_neg he]
      show ((s.data.filter isIdChar).take 64).length ≤ 64
      simp
  · unfold get_trace_id
    exact pyStrip_eq_self_of_no_ws _ (fun c hc => isIdChar_not_whitespace c (hchars c hc))

/-- Inserting into the `last_runs` dict makes the value retrievable
under its key. -/
theorem dictGet_dictInsert (d : List (String × PulseRunResult)) (k : String)
    (v : PulseRunResult) : dictGet? (dictInsert d k v) k = some v := by
  induction d with
  | nil => simp [dictInsert, dictGet?]
  | cons kv rest ih =>
    obtain ⟨k', v'⟩ := kv
    by_cases h : (k' == k) = true
    · simp [dictInsert, dictGet?, h]
    · simp only [dictInsert, dictGet?, h]
      simpa [dictGet?, h] using ih

/-- **C2**: a three-item scan where item `a` is a duplicate, item `b`
is fresh but fails the value filter, and item `c` is fresh, passes the
filter, and archives and remembers successfully, yields
`scanned=3, duplicated=1, filtered=1, processed=1, failed=0`. -/
theorem run_source_mixed_batch
    (collab : Collaborators) (orules : Option RulesConfig) (source : SourceConfig)
    (a b c : Item) (ar : ArchiveResp)
    (lastRuns : List (String × PulseRunResult)) (t0 t1 : Nat)
    (hscan : collab.scan source = Except.ok [a, b, c])
    (ha : collab.checkDuplicate a.url_hash = Except.ok true)
    (hb1 : collab.checkDuplicate b.url_hash = Except.ok false)
    (hb2 : is_high_value_signal b = false)
    (hc1 : collab.checkDuplicate c.url_hash = Except.ok false)
    (hc2 : is_high_value_signal c = true)
    (hc3 : collab.archive (mkContentPack orules source c) = Except.ok ar)
    (hc4 : collab.remember (mkRememberPayload source c ar) = Except.ok ()) :
    (run_source collab orules source lastRuns t0 t1).counters =
      { scanned := 3, processed := 1, duplicated := 1, filtered := 1, failed := 0 } := by
  simp [run_source, hscan, processItem, ha, hb1, hb2, hc1, hc2, hc3, hc4]

/-- **C2 witness**: the mixed batch evaluated on the concrete
collaborators. -/
theorem run_source_mixed_batch_check :
    (run_source testCollab none testSource [] 10 11).counters =
      { scanned := 3, processed := 1, duplicated := 1, filtered := 1, failed := 0 } :=
  run_source_mixed_batch testCollab none testSource itemDup itemLow itemHigh
    testArchiveResp [] 10 11 rfl rfl rfl (by decide) rfl (by decide) rfl rfl

/-- **C3**: when the scan collaborator raises, `run_source` yields
`scanned=0, failed=1` (all other counters zero), makes no
dedup-check / archive / remember call, records the start and end
times, and stores the run result in `last_runs` under the source id. -/
theorem run_source_scan_failure
    (collab : Collaborators) (orules : Option RulesConfig) (source : SourceConfig)
    (lastRuns : List (String × PulseRunResult)) (t0 t1 : Nat) (msg : String)
    (hscan : collab.scan source = Except.error msg) :
    (run_source collab orules source lastRuns t0 t1).counters =
      { scanned := 0, processed := 0, duplicated := 0, filtered := 0, failed := 1 }
    ∧ (run_source collab orules source lastRuns t0 t1).calls = [CallRec.scanCall source.id]
    ∧ (run_source collab orules source lastRuns t0 t1).result =
        { source_id := source.id, scanned := 0, processed := 0, duplicated := 0,
          failed := 1, started_at := t0, ended_at := t1 }
    ∧ dictGet? (run_source collab orules source lastRuns t0 t1).lastRuns source.id =
        some (run_source collab orules source lastRuns t0 t1).result := by
  refine ⟨?_, ?_, ?_, ?_⟩ <;>
    simp [run_source, hscan, dictGet_dictInsert]

/-- **C3 witness**: the failing scan evaluated on the concrete
collaborators. -/
theorem run_source_scan_failure_check :
    (run_source failCollab none testSource [] 20 21).counters =
      { scanned := 0, processed := 0, duplicated := 0, filtered := 0, failed := 1 } :=
  (run_source_scan_failure failCollab none testSource [] 20 21 "connection refused" rfl).1

/-- **C9**: for an item that is not a duplicate and passes the value
filter, the archive call carries a `ContentPack` whose `channels` are
the names of the enabled platform policies, falling back to the
literal default `["twitter", "wechat_blog"]` when no policy is enabled
or no rules are loaded (an empty Python list is falsy). -/
theorem content_pack_channels
    (collab : Collaborators) (orules : Option RulesConfig) (source : SourceConfig)
    (item : Item) (c : RunCounters)
    (hdup : collab.checkDuplicate item.url_hash = Except.ok false)
    (hval : is_high_value_signal item = true) :
    (∃ rest, (processItem collab orules source item c).2 =
        CallRec.checkDupCall item.url_hash ::
          CallRec.archiveCall (mkContentPack orules source item) :: rest)
    ∧ (mkContentPack orules source item).channels =
        (if enabledPlatformNames orules = [] then ["twitter", "wechat_blog"]
         else enabledPlatformNames orules)
    ∧ enabledPlatformNames none = ([] : List String)
    ∧ (∀ r : RulesConfig, enabledPlatformNames (some r) =
        (r.platforms.filter (fun p => p.2.enabled)).map (fun p => p.1)) := by
  refine ⟨?_, ?_, rfl, fun r => rfl⟩
  · simp only [processItem, hdup, hval, Bool.not_true, Bool.false_eq_true, if_false]
    cases harch : collab.archive (mkContentPack orules source item) with
    | error m => exact ⟨[], by simp [harch]⟩
    | ok ar =>
      cases hrem : collab.remember (mkRememberPayload source item ar) with
      | error m =>
        exact ⟨[CallRec.rememberCall (mkRememberPayload source item ar)], by simp [harch, hrem]⟩
      | ok u =>
        exact ⟨[CallRec.rememberCall (mkRememberPayload source item ar)], by simp [harch, hrem]⟩
  · simp only [mkContentPack]
    by_cases he : (enabledPlatformNames orules).isEmpty
    · rw [if_pos he, if_pos (List.isEmpty_iff.mp he)]
    · rw [if_neg he, if_neg (by simpa [List.isEmpty_iff] using he)]

/-- **C9 witness**: with no rules loaded the channels are the default
list. -/
theorem content_pack_channels_check :
    (mkContentPack none testSource itemHigh).channels = ["twitter", "wechat_blog"] := by
  have h := content_pack_channels testCollab none testSource itemHigh {} rfl (by decide)
  simpa using h.2.1

/-- **C5 counterexample**: the lock `run_source` takes is not
per-source — two different sources acquire the very same engine lock
(`self._run_lock` is the only lock `__init__` creates), so runs of
different sources cannot proceed concurrently. -/
theorem run_lock_not_per_source :
    testSource ≠ testSourceB ∧ runSourceLock testSource = runSourceLock testSourceB :=
  ⟨by decide, rfl⟩

/-- **C5 (amended)**: `run_source` holds a single engine-wide lock for
the duration of the run, so at most one run of a given source is in
flight at a time — but the same lock also serializes runs of
*different* sources: while any run holds it, starting a run of any
source (same or different) blocks. -/
theorem run_lock_globally_serializes :
    (∀ s t : SourceConfig, runSourceLock s = runSourceLock t)
    ∧ (∀ (st : LockState) (s1 s2 : SourceConfig) (st' : LockState),
        tryBeginRun st s1 = some st' → tryBeginRun st' s2 = none) := by
  refine ⟨fun s t => rfl, ?_⟩
  intro st s1 s2 st' h
  unfold tryBeginRun at h ⊢
  cases hh : st (runSourceLock s1) with
  | some x => rw [hh] at h; exact absurd h (by simp)
  | none =>
    rw [hh] at h
    have hst' : st' = fun l => if l = runSourceLock s1 then some s1.id else st l :=
      (Option.some_injective _ h).symm
    subst hst'
    simp [runSourceLock]

/-- **C5 witness**: after a run of `testSource` acquires the lock, a
run of the different source `testSourceB` cannot start. -/
theorem run_lock_globally_serializes_check :
    tryBeginRun
      (fun l => if l = runSourceLock testSource then some testSource.id else none)
      testSourceB = none :=
  run_lock_globally_serializes.2 (fun _ => none) testSource testSourceB
    (fun l => if l = runSourceLock testSource then some testSource.id else none) rfl

/-- A parenthesized job id (`"source::" ++ sid`) is never the watcher
id. -/
theorem source_id_ne_watcher (sid : String) : ("source::" ++ sid) ≠ "config_watcher" := by
  intro h
  have h2 : 's' :: 'o' :: 'u' :: 'r' :: 'c' :: 'e' :: ':' :: ':' :: sid.data
      = 'c' :: 'o' :: 'n' :: 'f' :: 'i' :: 'g' :: '_' :: 'w' :: 'a' :: 't' :: 'c' :: 'h' :: 'e' :: 'r' :: [] :=
    congrArg String.data h
  have h3 : ('s' : Char) = 'c' := (List.cons.injEq _ _ _ _ ▸ h2).1
  exact absurd h3 (by decide)

/-- A platform job id is never the watcher id. -/
theorem platform_id_ne_watcher (name : String) : ("platform::" ++ name) ≠ "config_watcher" := by
  intro h
  have h2 : 'p' :: 'l' :: 'a' :: 't' :: 'f' :: 'o' :: 'r' :: 'm' :: ':' :: ':' :: name.data
      = 'c' :: 'o' :: 'n' :: 'f' :: 'i' :: 'g' :: '_' :: 'w' :: 'a' :: 't' :: 'c' :: 'h' :: 'e' :: 'r' :: [] :=
    congrArg String.data h
  have h3 : ('p' : Char) = 'c' := (List.cons.injEq _ _ _ _ ▸ h2).1
  exact absurd h3 (by decide)

/-- `add_job` of a job with another id keeps the watcher in the job
set. -/
theorem addJob_keeps_watcher (j : Job) (jobs : List Job)
    (hne : j.id ≠ "config_watcher")
    (h : "config_watcher" ∈ jobs.map Job.id) :
    "config_watcher" ∈ (addJob j jobs).map Job.id := by
  rcases List.mem_map.mp h with ⟨k, hk, hkid⟩
  refine List.mem_map.mpr ⟨k, ?_, hkid⟩
  unfold addJob
  refine List.mem_append.mpr (Or.inl ?_)
  refine List.mem_filter.mpr ⟨hk, ?_⟩
  simp only [decide_eq_true_eq]
  intro hkj
  exact hne (hkj ▸ hkid)

/-- The source-job installation loop keeps the watcher, whether it
finishes or raises part-way. -/
theorem installSourceJobs_keeps_watcher :
    ∀ (srcs : List SourceConfig) (jobs : List Job),
      "config_watcher" ∈ jobs.map Job.id →
      "config_watcher" ∈ (installSourceJobs srcs jobs).2.map Job.id := by
  intro srcs
  induction srcs with
  | nil => intro jobs h; exact h
  | cons s rest ih =>
    intro jobs h
    simp only [installSourceJobs]
    cases interval_to_seconds s.fetch_interval with
    | error m => exact h
    | ok secs => exact ih _ (addJob_keeps_watcher _ _ (source_id_ne_watcher s.id) h)

/-- The platform-job installation loop keeps the watcher, whether it
finishes or raises part-way. -/
theorem installPlatformJobs_keeps_watcher :
    ∀ (ps : List (String × PlatformPolicy)) (jobs : List Job),
      "config_watcher" ∈ jobs.map Job.id →
      "config_watcher" ∈ (installPlatformJobs ps jobs).2.map Job.id := by
  intro ps
  induction ps with
  | nil => intro jobs h; exact h
  | cons p rest ih =>
    intro jobs h
    obtain ⟨name, policy⟩ := p
    simp only [installPlatformJobs]
    cases policy.schedule with
    | none => exact ih _ h
    | some sched =>
      dsimp only
      by_cases hskip : (!policy.enabled || sched == "") = true
      · rw [if_pos hskip]; exact ih _ h
      · rw [if_neg hskip]
        cases parse_schedule_hhmm sched with
        | error m => exact h
        | ok hm => exact ih _ (addJob_keeps_watcher _ _ (platform_id_ne_watcher name) h)

/-- Clearing runtime jobs keeps the watcher. -/
theorem clear_keeps_watcher (jobs : List Job)
    (h : "config_watcher" ∈ jobs.map Job.id) :
    "config_watcher" ∈ (clear_runtime_jobs jobs).map Job.id := by
  rcases List.mem_map.mp h with ⟨k, hk, hkid⟩
  refine List.mem_map.mpr ⟨k, ?_, hkid⟩
  unfold clear_runtime_jobs
  exact List.mem_filter.mpr ⟨hk, by simp [hkid]⟩

/-- **C8**: `_clear_runtime_jobs` removes every job except the
watcher, and the watcher job survives every reload — after
`_load_and_schedule`, successful or failed at any stage, the watcher
is still in the scheduler's job set. -/
theorem watcher_survives_reload (env : ConfigEnv) (force : Bool) (st : EngineState)
    (h : "config_watcher" ∈ st.jobs.map Job.id) :
    (∀ j ∈ clear_runtime_jobs st.jobs, j.id = "config_watcher")
    ∧ "config_watcher" ∈ (load_and_schedule env force st).2.jobs.map Job.id := by
  constructor
  · intro j hj
    unfold clear_runtime_jobs at hj
    have := (List.mem_filter.mp hj).2
    simpa using this
  · unfold load_and_schedule
    cases env.fingerprintResult with
    | error m => exact h
    | ok newFp =>
      dsimp only
      by_cases hshort : (!force && newFp == st.fingerprint) = true
      · rw [if_pos hshort]; exact h
      · rw [if_neg hshort]
        cases env.loadResult with
        | error m => exact h
        | ok rules =>
          dsimp only
          by_cases htz : (!env.tzValid rules.global_config.timezone) = true
          · rw [if_pos htz]; exact h
          · rw [if_neg htz]
            have h0 := clear_keeps_watcher st.jobs h
            have h1 := installSourceJobs_keeps_watcher (sortByWeightDesc rules.sources)
              (clear_runtime_jobs st.jobs) h0
            rcases hs : installSourceJobs (sortByWeightDesc rules.sources)
                (clear_runtime_jobs st.jobs) with ⟨r1, jobs1⟩
            rw [hs] at h1
            cases r1 with
            | error m => simpa using h1
            | ok u =>
              dsimp only
              have h2 := installPlatformJobs_keeps_watcher rules.platforms jobs1 h1
              rcases hp : installPlatformJobs rules.platforms jobs1 with ⟨r2, jobs2⟩
              rw [hp] at h2
              cases r2 with
              | error m => simpa using h2
              | ok u2 =>
                dsimp only
                simpa using addJob_keeps_watcher
                  { id := "maintenance::cleanup", kind := JobKind.cleanupJob,
                    trigger := Trigger.cron 3 30 } jobs2 (by decide) h2

/-- **C8 witness**: the watcher survives the concrete failing reload
of `cexEnv` from `cexState`. -/
theorem watcher_survives_reload_check :
    "config_watcher" ∈ (load_and_schedule cexEnv true cexState).2.jobs.map Job.id :=
  (watcher_survives_reload cexEnv true cexState (by decide)).2

/-- **C10 witness**: the bound evaluated at a concrete messy id. -/
theorem normalized_ids_bounded_check :
    (normalize_id "trace id: no.7 (retry!)").length ≤ 64
    ∧ get_trace_id { trace := normalize_id "trace id: no.7 (retry!)", request := "" }
        = normalize_id "trace id: no.7 (retry!)" :=
  ⟨(normalized_ids_bounded "trace id: no.7 (retry!)" "").2.1,
   (normalized_ids_bounded "trace id: no.7 (retry!)" "").2.2.2⟩

/-- **C1 counterexample**: a reload whose configuration parses but
carries an invalid `fetch_interval` fails *after*
`_clear_runtime_jobs` has run: the error is surfaced, but the
previously installed source job is gone — the job set is not the one
from before the reload, so a failing reload is not atomic. -/
theorem load_and_schedule_not_atomic :
    (load_and_schedule cexEnv true cexState).1 =
      Except.error (PyErr.valueError "Unsupported interval format: 15x")
    ∧ (load_and_schedule cexEnv true cexState).2.jobs ≠ cexState.jobs
    ∧ (load_and_schedule cexEnv true cexState).2.jobs =
        [{ id := "config_watcher", kind := JobKind.watchRules,
           trigger := Trigger.interval 60 }] := by
  refine ⟨rfl, ?_, rfl⟩
  decide

/-- **C1 (amended)**: a reload that fails while reading the file,
parsing the configuration, or resolving the timezone — all before any
job is touched — leaves the engine completely unchanged and surfaces
the error; and *every* failing reload leaves `rules` and `fingerprint`
unchanged.  (A failure while installing a job, by contrast, surfaces
the error but may leave a partially rebuilt job set, as the
counterexample shows.) -/
theorem load_and_schedule_failsoft (env : ConfigEnv) (force : Bool) (st : EngineState) :
    (∀ m, env.fingerprintResult = Except.error m →
      load_and_schedule env force st = (Except.error (PyErr.readError m), st))
    ∧ (∀ fp m, env.fingerprintResult = Except.ok fp →
        env.loadResult = Except.error m →
        (!force && fp == st.fingerprint) = false →
        load_and_schedule env force st = (Except.error (PyErr.parseError m), st))
    ∧ (∀ fp rules, env.fingerprintResult = Except.ok fp →
        env.loadResult = Except.ok rules →
        (!force && fp == st.fingerprint) = false →
        env.tzValid rules.global_config.timezone = false →
        load_and_schedule env force st =
          (Except.error (PyErr.tzError rules.global_config.timezone), st))
    ∧ (∀ e, (load_and_schedule env force st).1 = Except.error e →
        (load_and_schedule env force st).2.rules = st.rules
        ∧ (load_and_schedule env force st).2.fingerprint = st.fingerprint) := by
  refine ⟨?_, ?_, ?_, ?_⟩
  · intro m hm
    simp [load_and_schedule, hm]
  · intro fp m h1 h2 h3
    simp [load_and_schedule, h1, h2, h3]
  · intro fp rules h1 h2 h3 h4
    simp [load_and_schedule, h1, h2, h3, h4]
  · intro e he
    unfold load_and_schedule at he ⊢
    cases hf : env.fingerprintResult with
    | error m => exact ⟨rfl, rfl⟩
    | ok newFp =>
      rw [hf] at he
      dsimp only at he ⊢
      by_cases hshort : (!force && newFp == st.fingerprint) = true
      · rw [if_pos hshort] at he; exact absurd he (by simp)
      · rw [if_neg hshort] at he ⊢
        cases hl : env.loadResult with
        | error m => exact ⟨rfl, rfl⟩
        | ok rules =>
          rw [hl] at he
          dsimp only at he ⊢
          by_cases htz : (!env.tzValid rules.global_config.timezone) = true
          · rw [if_pos htz] at he ⊢; exact ⟨rfl, rfl⟩
          · rw [if_neg htz] at he ⊢
            rcases hs : installSourceJobs (sortByWeightDesc rules.sources)
                (clear_runtime_jobs st.jobs) with ⟨r1, jobs1⟩
            rw [hs] at he
            cases r1 with
            | error m => exact ⟨rfl, rfl⟩
            | ok u =>
              dsimp only at he ⊢
              rcases hp : installPlatformJobs rules.platforms jobs1 with ⟨r2, jobs2⟩
              rw [hp] at he
              cases r2 with
              | error m => exact ⟨rfl, rfl⟩
              | ok u2 => exact absurd he (by simp)

/-- **C1 witness**: the pre-install fail-soft case at a concrete
unreadable file. -/
theorem load_and_schedule_failsoft_check :
    load_and_schedule readFailEnv true cexState =
      (Except.error (PyErr.readError "unreadable"), cexState) :=
  (load_and_schedule_failsoft readFailEnv true cexState).1 "unreadable" rfl

/-- Every word of a processed chunk is 32-bit. -/
theorem processChunk_bounded (H : Hash8) (chunk : List Nat) :
    HashBounded (processChunk H chunk) := by
  unfold processChunk HashBounded add32 w32mod
  dsimp only
  refine ⟨?_, ?_, ?_, ?_, ?_, ?_, ?_, ?_⟩ <;> omega

/-- Folding `processChunk` preserves the 32-bit bound. -/
theorem foldl_processChunk_bounded :
    ∀ (l : List (List Nat)) (H : Hash8), HashBounded H →
      HashBounded (l.foldl processChunk H) := by
  intro l
  induction l with
  | nil => intro H h; exact h
  | cons c cs ih => intro H _; exact ih _ (processChunk_bounded H c)

/-- The final SHA-256 state of any message is componentwise 32-bit. -/
theorem sha256State_bounded (msg : List Nat) : HashBounded (sha256State msg) :=
  foldl_processChunk_bounded _ initH (by unfold HashBounded; decide)

/-- Two hash states with equal words are equal. -/
theorem hash8_eq_of_parts {H K : Hash8}
    (e0 : H.h0 = K.h0) (e1 : H.h1 = K.h1) (e2 : H.h2 = K.h2) (e3 : H.h3 = K.h3)
    (e4 : H.h4 = K.h4) (e5 : H.h5 = K.h5) (e6 : H.h6 = K.h6) (e7 : H.h7 = K.h7) :
    H = K := by
  cases H
  cases K
  simp_all

/-- **C6 counterexample**: the claim that *any* byte difference changes
the fingerprint is false in principle: the digest is a fixed-length
value, so by pigeonhole over the infinitely many byte strings there
exist two different contents with the same fingerprint. -/
theorem fingerprint_not_injective :
    ¬ (∀ a b : List Nat, a ≠ b → rules_fingerprint a ≠ rules_fingerprint b) := by
  intro hinj
  obtain ⟨m, n, hmn, hfeq⟩ :=
    Finite.exists_ne_map_eq_of_infinite
      (fun k : Nat =>
        ((⟨(sha256State (List.replicate k 0)).h0, (sha256State_bounded _).1⟩ : Fin w32mod),
         (⟨(sha256State (List.replicate k 0)).h1, (sha256State_bounded _).2.1⟩ : Fin w32mod),
         (⟨(sha256State (List.replicate k 0)).h2, (sha256State_bounded _).2.2.1⟩ : Fin w32mod),
         (⟨(sha256State (List.replicate k 0)).h3, (sha256State_bounded _).2.2.2.1⟩ : Fin w32mod),
         (⟨(sha256State (List.replicate k 0)).h4, (sha256State_bounded _).2.2.2.2.1⟩ : Fin w32mod),
         (⟨(sha256State (List.replicate k 0)).h5, (sha256State_bounded _).2.2.2.2.2.1⟩ : Fin w32mod),
         (⟨(sha256State (List.replicate k 0)).h6, (sha256State_bounded _).2.2.2.2.2.2.1⟩ : Fin w32mod),
         (⟨(sha256State (List.replicate k 0)).h7, (sha256State_bounded _).2.2.2.2.2.2.2⟩ : Fin w32mod)))
  simp only [Prod.mk.injEq, Fin.mk.injEq] at hfeq
  obtain ⟨e0, e1, e2, e3, e4, e5, e6, e7⟩ := hfeq
  have hstate : sha256State (List.replicate m 0) = sha256State (List.replicate n 0) :=
    hash8_eq_of_parts e0 e1 e2 e3 e4 e5 e6 e7
  have hne : List.replicate m 0 ≠ List.replicate n 0 := by
    intro h
    exact hmn (by simpa using congrArg List.length h)
  exact hinj _ _ hne (congrArg renderHex hstate)

/-- **C6 (amended)**: the fingerprint is a deterministic function of
the raw bytes — byte-identical contents always produce identical
fingerprints — and it is a fixed-length digest of 64 lowercase-hex
characters, which is exactly why distinct contents are merely
overwhelmingly likely (not guaranteed) to get distinct fingerprints. -/
theorem fingerprint_deterministic_fixed_length :
    (∀ a b : List Nat, a = b → rules_fingerprint a = rules_fingerprint b)
    ∧ (∀ a : List Nat, (rules_fingerprint a).length = 64) := by
  constructor
  · intro a b h
    rw [h]
  · intro a
    show (renderHex (sha256State a)).data.length = 64
    simp [renderHex, toHex8]

/-- **C6 witness**: determinism and the fixed length at a concrete
byte string. -/
theorem fingerprint_deterministic_check :
    rules_fingerprint [0, 1, 2] = rules_fingerprint [0, 1, 2]
    ∧ (rules_fingerprint [0, 1, 2]).length = 64 :=
  ⟨fingerprint_deterministic_fixed_length.1 [0, 1, 2] [0, 1, 2] rfl,
   fingerprint_deterministic_fixed_length.2 [0, 1, 2]⟩

/-- FIPS 180-4 known-answer test: the digest of the empty byte
string. -/
example : rules_fingerprint [] =
    "e3b0c44298fc1c149afbf4c8996fb92427ae41e4649b934ca495991b7852b855" := by
  rfl

/-- FIPS 180-4 known-answer test: the digest of `"abc"`. -/
example : rules_fingerprint [97, 98, 99] =
    "ba7816bf8f01cfea414140de5dae2223b00361a396177a9cb410ff61f20015ad" := by
  rfl

end NeuralFlow
